import Mathlib

/-!
Verification of the continuous analog-to-relative-motion handler
(`AbsToRelHandler` in
`src/inputremapper/injection/mapping_handlers/abs_to_rel_handler.py`):
the pointer-mode and wheel-mode emission loops, the `notify` state
machine, output-write suppression and overflow containment, and the
constructor invariants.

Machine floats are modelled by `ℚ` (the loop arithmetic is exact in the
reals; `ℚ` makes it executable).  Python `int(x)` is truncation toward
zero and `math.fmod(x, 1)` is the sign-preserving fractional part
`x - int(x)`.
-/

/-- Linux input-event type `EV_REL` (relative axis events). -/
def EV_REL : Nat := 2

/-- Linux input-event type `EV_ABS` (absolute axis events). -/
def EV_ABS : Nat := 3

/-- Linux relative-axis code `REL_HWHEEL` (0x06). -/
def REL_HWHEEL : Nat := 6

/-- Linux relative-axis code `REL_WHEEL` (0x08). -/
def REL_WHEEL : Nat := 8

/-- Linux relative-axis code `REL_WHEEL_HI_RES` (0x0b). -/
def REL_WHEEL_HI_RES : Nat := 11

/-- Linux relative-axis code `REL_HWHEEL_HI_RES` (0x0c). -/
def REL_HWHEEL_HI_RES : Nat := 12

/-- Python `int(x)` on a real value: truncation toward zero. -/
def intTrunc (x : ℚ) : ℤ := if 0 ≤ x then ⌊x⌋ else ⌈x⌉

/-- Python `math.fmod(x, 1)`: the fractional part with the sign of `x`,
equal to `x - int(x)`.  This is the sign-correct remainder used by the
emission loops (`float_value % 1` would be wrong for negative values,
as the source comment notes). -/
def fmodOne (x : ℚ) : ℚ := x - intTrunc x

/-- One iteration of the `while not self._stop` loop in `_run_normal`:
when the stop flag is set the loop body does not run (the loop exits and
the running flag clears), otherwise the tick computes
`float_value = rate + remainder`, emits `int(float_value)` and carries
`fmod(float_value, 1)` forward. -/
def runNormalTick (stop : Bool) (rate rem : ℚ) : Option (ℤ × ℚ) :=
  if stop then none
  else some (intTrunc (rate + rem), fmodOne (rate + rem))

/-- The carried remainder of `_run_normal` after `n` ticks with the
target rate `self._value` held fixed at `rate` and no stop requested:
`remainder = 0.0` initially, then `remainder = fmod(rate + remainder, 1)`
each tick. -/
def normalRem (rate : ℚ) : ℕ → ℚ
  | 0 => 0
  | n + 1 => fmodOne (rate + normalRem rate n)

/-- The sum of the integer values `int(rate + remainder)` computed by
the first `n` ticks of `_run_normal` with the target rate held fixed at
`rate`. -/
def normalTotal (rate : ℚ) : ℕ → ℤ
  | 0 => 0
  | n + 1 => normalTotal rate n + intTrunc (rate + normalRem rate n)

/-- The run-method binding chosen once in `AbsToRelHandler.__init__`
from `mapping.output_code`: a wheel output binds `_run_wheel` with a
fixed code pair and weight pair, anything else binds `_run_normal`. -/
inductive RunMode
  | wheel (codes : Nat × Nat) (weights : ℚ × ℚ)
  | normal
deriving DecidableEq

/-- The selection in `AbsToRelHandler.__init__`: for the four wheel
output codes, pick the (low-res, hi-res) code pair for the matching
orientation and the weight pair `(1.0, 120.0)` when the configured
output is a low-res code, `(1/120, 1)` when it is a hi-res code;
otherwise use the normal pointer loop. -/
def selectRun (output_code : Nat) : RunMode :=
  if output_code = REL_WHEEL ∨ output_code = REL_HWHEEL ∨
      output_code = REL_WHEEL_HI_RES ∨ output_code = REL_HWHEEL_HI_RES then
    let codes :=
      if output_code = REL_WHEEL ∨ output_code = REL_WHEEL_HI_RES then
        (REL_WHEEL, REL_WHEEL_HI_RES)
      else
        (REL_HWHEEL, REL_HWHEEL_HI_RES)
    let weights : ℚ × ℚ :=
      if output_code = REL_WHEEL ∨ output_code = REL_HWHEEL then
        (1, 120)
      else
        (1 / 120, 1)
    RunMode.wheel codes weights
  else
    RunMode.normal

/-- The pair of carried remainders of `_run_wheel` after `n` ticks with
the target rate `self._value` held fixed at `v` and no stop requested:
`remainder = [0.0, 0.0]` initially, and each tick updates channel `i`
with `fmod(v * weights[i] + remainder[i], 1)`. -/
def wheelRem (v : ℚ) (w : ℚ × ℚ) : ℕ → ℚ × ℚ
  | 0 => (0, 0)
  | n + 1 =>
    (fmodOne (v * w.1 + (wheelRem v w n).1),
     fmodOne (v * w.2 + (wheelRem v w n).2))

/-- The per-channel sums of the integer values
`int(v * weights[i] + remainder[i])` computed by the first `n` ticks of
`_run_wheel`; both channels are written every tick, each from its own
remainder. -/
def wheelTotal (v : ℚ) (w : ℚ × ℚ) : ℕ → ℤ × ℤ
  | 0 => (0, 0)
  | n + 1 =>
    ((wheelTotal v w n).1 + intTrunc (v * w.1 + (wheelRem v w n).1),
     (wheelTotal v w n).2 + intTrunc (v * w.2 + (wheelRem v w n).2))

/-- The out-of-band action flags carried by an input event
(`EventActions` in `input_event.py`; this handler only tests membership
of `recenter`, the other flags are opaque here). -/
inductive EventAction
  | recenter
  | other (n : Nat)
deriving DecidableEq

/-- The fields of `InputEvent` that `AbsToRelHandler` reads. -/
structure InputEvent where
  type : Nat
  code : Nat
  value : ℤ
  actions : List EventAction
deriving DecidableEq

/-- `InputEvent.type_and_code`: the `(type, code)` pair identifying the
physical signal. -/
def InputEvent.type_and_code (e : InputEvent) : Nat × Nat := (e.type, e.code)

/-- One entry of `source.capabilities(absinfo=True)[EV_ABS]`: the
minimum and maximum the device reports for an absolute axis. -/
structure AbsInfo where
  min : ℤ
  max : ℤ
deriving DecidableEq

/-- The constructor arguments of `Transformation` (`axis_transform.py`):
the device's reported axis range and the mapping's deadzone, gain and
expo.  The numeric curve itself lives outside the embedded sources, so
theorems are parameterized over an arbitrary evaluation function. -/
structure Transformation where
  max_ : ℤ
  min_ : ℤ
  deadzone : ℚ
  gain : ℚ
  expo : ℚ
deriving DecidableEq

/-- The mapping fields `AbsToRelHandler` consumes.  `is_wheel_output` is
the wheel-output predicate supplied by the configuration layer
(`Mapping.is_wheel_output()` in `mapping.py`, outside the embedded
sources), carried here as an opaque Boolean so every theorem holds for
either answer. -/
structure Mapping where
  output_code : Nat
  target_uinput : String
  deadzone : ℚ
  gain : ℚ
  expo : ℚ
  rel_xy_speed : ℚ
  rel_wheel_speed : ℚ
  rel_xy_rate : ℚ
  rel_wheel_rate : ℚ
  is_wheel_output : Bool

/-- The mutable state of one `AbsToRelHandler` instance: the mapped
input axis `_map_axis`, the current target rate `_value`, the
`_running` and `_stop` flags and the lazily built `_transform`. -/
structure AbsToRelState where
  map_axis : Nat × Nat
  value : ℚ
  running : Bool
  stop : Bool
  transform : Option Transformation
deriving DecidableEq

/-- The handler state right after `AbsToRelHandler.__init__` for a
combination whose zero-valued `EV_ABS` event has `(type, code) = axis`:
`_value = 0`, `_running = False`, `_stop = True`, `_transform = None`. -/
def initState (axis : Nat × Nat) : AbsToRelState :=
  { map_axis := axis, value := 0, running := false, stop := true,
    transform := none }

/-- What one `notify` call returns and does: the Python return value
(`handled`), the updated handler state, whether the source device's
capabilities were queried to build the `Transformation`, and whether a
new emission-loop task was scheduled (`asyncio.ensure_future`). -/
structure NotifyResult where
  handled : Bool
  state : AbsToRelState
  queriedCaps : Bool
  startedLoop : Bool
deriving DecidableEq

/-- The `Transformation` that `notify` uses for this event, and whether
it had to be built (querying `source.capabilities`): the cached one
when present, otherwise a fresh one from the reported axis range and
the mapping's deadzone, gain and expo. -/
def usedTransform (m : Mapping) (caps : Nat → AbsInfo) (st : AbsToRelState)
    (ev : InputEvent) : Transformation × Bool :=
  match st.transform with
  | none =>
    ({ max_ := (caps ev.code).max, min_ := (caps ev.code).min,
       deadzone := m.deadzone, gain := m.gain, expo := m.expo }, true)
  | some t => (t, false)

/-- The speed factor the transformed magnitude is scaled by: the wheel
speed for a wheel output, the pointer speed otherwise. -/
def speedFor (m : Mapping) : ℚ :=
  if m.is_wheel_output then m.rel_wheel_speed else m.rel_xy_speed

/-- The target rate `self._value` computed by `notify` for a matching
non-recenter event: the transformed magnitude times the configured
speed.  `evalT` is the numeric curve of the `Transformation`. -/
def targetValue (evalT : Transformation → ℤ → ℚ) (m : Mapping)
    (caps : Nat → AbsInfo) (st : AbsToRelState) (ev : InputEvent) : ℚ :=
  evalT (usedTransform m caps st ev).1 ev.value * speedFor m

/-- `AbsToRelHandler.notify`: reject events off the mapped axis; on a
recenter action set `_stop` and report handled; otherwise build the
transform lazily, compute the target rate, set `_stop` and report
handled when the rate is exactly zero, and otherwise schedule the bound
run method unless `_running` is already set. -/
def notify (evalT : Transformation → ℤ → ℚ) (m : Mapping) (caps : Nat → AbsInfo)
    (st : AbsToRelState) (ev : InputEvent) : NotifyResult :=
  if ev.type_and_code ≠ st.map_axis then
    { handled := false, state := st, queriedCaps := false, startedLoop := false }
  else if EventAction.recenter ∈ ev.actions then
    { handled := true, state := { st with stop := true },
      queriedCaps := false, startedLoop := false }
  else
    let tq := usedTransform m caps st ev
    let v := targetValue evalT m caps st ev
    let st1 := { st with transform := some tq.1, value := v }
    if v = 0 then
      { handled := true, state := { st1 with stop := true },
        queriedCaps := tq.2, startedLoop := false }
    else if st.running then
      { handled := true, state := st1, queriedCaps := tq.2, startedLoop := false }
    else
      { handled := true, state := st1, queriedCaps := tq.2, startedLoop := true }

/-- Handler and event data for the C6 analysis: a pointer mapping, a
constant-curve transform evaluation, and a matching non-zero deflection
event. -/
def c6Mapping : Mapping :=
  { output_code := 1, target_uinput := "mouse", deadzone := 0, gain := 1,
    expo := 0, rel_xy_speed := 80, rel_wheel_speed := 3, rel_xy_rate := 60,
    rel_wheel_rate := 60, is_wheel_output := false }

/-- A cached transform for the C6 analysis. -/
def c6Transform : Transformation :=
  { max_ := 32767, min_ := -32768, deadzone := 0, gain := 1, expo := 0 }

/-- Device capabilities for the C6 analysis. -/
def c6Caps : Nat → AbsInfo := fun _ => { min := -32768, max := 32767 }

/-- A transform evaluation returning magnitude one half everywhere. -/
def c6Eval : Transformation → ℤ → ℚ := fun _ _ => 1 / 2

/-- A matching non-zero, non-recenter deflection event on axis
`(EV_ABS, 0)`. -/
def c6Event : InputEvent :=
  { type := EV_ABS, code := 0, value := 1000, actions := [] }

/-- A handler state whose loop is still running but with a stop request
already pending (a recenter or zero event arrived since the last tick). -/
def c6State : AbsToRelState :=
  { map_axis := (EV_ABS, 0), value := 40, running := true, stop := true,
    transform := some c6Transform }

/-- A handler state with a loop running and no stop pending. -/
def c6StateLive : AbsToRelState :=
  { map_axis := (EV_ABS, 0), value := 40, running := true, stop := false,
    transform := some c6Transform }

/-- The possible outcomes of one `AbsToRelHandler._write` call: the
zero-value early return, a successful injection, or an `OverflowError`
raised by the output sink, caught and logged. -/
inductive WriteOutcome
  | skipped
  | written
  | overflowLogged
deriving DecidableEq

/-- The output sink `global_uinputs.write`, abstracted: given the
`(type, code, value)` triple it either succeeds or raises
`OverflowError` (the only error `_write` handles). -/
abbrev UInputSink : Type := Nat × Nat × ℤ → Except Unit Unit

/-- `AbsToRelHandler._write`: return immediately on a zero value
("rel 0 does not make sense"); otherwise inject the triple, catching
`OverflowError` and logging instead of letting it escape. -/
def write (sink : UInputSink) (ev_type keycode : Nat) (value : ℤ) :
    WriteOutcome :=
  if value = 0 then WriteOutcome.skipped
  else
    match sink (ev_type, keycode, value) with
    | Except.ok _ => WriteOutcome.written
    | Except.error _ => WriteOutcome.overflowLogged

/-- The write outcomes of the first `n` ticks of `_run_normal`: each
tick hands `int(rate + remainder)` to `_write` on the configured output
code, whatever came of the earlier ticks. -/
def normalOutcomes (sink : UInputSink) (output_code : Nat) (rate : ℚ) :
    ℕ → List WriteOutcome
  | 0 => []
  | n + 1 => normalOutcomes sink output_code rate n ++
      [write sink EV_REL output_code (intTrunc (rate + normalRem rate n))]

/-- The number of `source.capabilities` queries performed over a
sequence of `notify` calls, folding the handler state through. -/
def queryCount (evalT : Transformation → ℤ → ℚ) (m : Mapping)
    (caps : Nat → AbsInfo) (st : AbsToRelState) : List InputEvent → ℕ
  | [] => 0
  | ev :: rest =>
    (if (notify evalT m caps st ev).queriedCaps then 1 else 0) +
      queryCount evalT m caps (notify evalT m caps st ev).state rest

/-- Handler data for the C8 instantiation. -/
def c8Mapping : Mapping :=
  { output_code := 0, target_uinput := "mouse", deadzone := 1 / 10, gain := 1,
    expo := 0, rel_xy_speed := 80, rel_wheel_speed := 3, rel_xy_rate := 60,
    rel_wheel_rate := 60, is_wheel_output := false }

/-- Device capabilities for the C8 instantiation. -/
def c8Caps : Nat → AbsInfo := fun _ => { min := -32768, max := 32767 }

/-- A matching deflection event for the C8 instantiation. -/
def c8Event : InputEvent :=
  { type := EV_ABS, code := 0, value := 16384, actions := [] }

/-- A cached transform for the C8 instantiation. -/
def c8Transform : Transformation :=
  { max_ := 32767, min_ := -32768, deadzone := 1 / 10, gain := 1, expo := 0 }

/-- Python exceptions raised by the embedded code paths: a failed
`assert` statement. -/
inductive PyError
  | assertionError
deriving DecidableEq

/-- `AbsToRelHandler.set_sub_handler`: `assert False` — this handler
structurally supports no sub-handler, so acquiring one raises
`AssertionError` whatever the argument. -/
def set_sub_handler {α : Type} (handler : α) : Except PyError Unit :=
  Except.error PyError.assertionError

/-- The `_map_axis` search in `AbsToRelHandler.__init__`: scan the
combination for the first event with value 0, assert that its type is
`EV_ABS`, and record its `(type, code)`; a combination without a
zero-valued event just ends the loop, leaving the axis unset. -/
def findMapAxis : List InputEvent → Except PyError (Option (Nat × Nat))
  | [] => Except.ok none
  | ev :: rest =>
    if ev.value = 0 then
      if ev.type = EV_ABS then Except.ok (some ev.type_and_code)
      else Except.error PyError.assertionError
    else findMapAxis rest

theorem intTrunc_add_fmodOne (x : ℚ) : (intTrunc x : ℚ) + fmodOne x = x := by
  simp [fmodOne]

theorem abs_fmodOne_lt_one (x : ℚ) : |fmodOne x| < 1 := by
  unfold fmodOne intTrunc
  split
  · rename_i h
    have h1 := Int.floor_le x
    have h2 := Int.lt_floor_add_one x
    rw [abs_of_nonneg (by linarith)]
    linarith
  · rename_i h
    push_neg at h
    have h1 := Int.le_ceil x
    have h2 := Int.ceil_lt_add_one x
    rw [abs_of_nonpos (by linarith)]
    linarith

theorem normalTotal_add_normalRem (rate : ℚ) (n : ℕ) :
    (normalTotal rate n : ℚ) + normalRem rate n = rate * n := by
  induction n with
  | zero => simp [normalTotal, normalRem]
  | succ n ih =>
    have hstep : (normalTotal rate (n + 1) : ℚ) + normalRem rate (n + 1)
        = ((normalTotal rate n : ℚ) + normalRem rate n) + rate := by
      simp only [normalTotal, normalRem, fmodOne]
      push_cast
      ring
    rw [hstep, ih]
    push_cast
    ring

theorem abs_normalRem_lt_one (rate : ℚ) (n : ℕ) : |normalRem rate n| < 1 := by
  cases n with
  | zero => simp [normalRem]
  | succ n => exact abs_fmodOne_lt_one _

/-- Claim C1: drift-free integration of the emission loop.  Starting
from remainder `0`, for every constant signed target rate `rate` held
fixed over `N` ticks of `_run_normal`, the sum of the integer values
computed per tick (truncation of rate plus carried remainder, with the
fractional leftover carried forward by the sign-correct `fmod`) equals
`round (rate * N)` within plus or minus 1, for positive and negative
rates alike. -/
theorem run_normal_drift_free (rate : ℚ) (N : ℕ) :
    |normalTotal rate N - round (rate * N)| ≤ 1 := by
  have hinv := normalTotal_add_normalRem rate N
  have hrem := abs_normalRem_lt_one rate N
  have hround : |rate * N - round (rate * N)| ≤ 1 / 2 := abs_sub_round (rate * N)
  have hq : |(normalTotal rate N : ℚ) - (round (rate * N) : ℤ)| < 3 / 2 := by
    have heq : (normalTotal rate N : ℚ) - (round (rate * N) : ℤ)
        = (rate * N - round (rate * N)) + (-(normalRem rate N)) := by
      linarith
    rw [heq]
    calc |(rate * N - round (rate * N)) + (-(normalRem rate N))|
        ≤ |rate * N - round (rate * N)| + |(-(normalRem rate N))| := abs_add _ _
      _ < 3 / 2 := by rw [abs_neg]; linarith
  have hz : |normalTotal rate N - round (rate * N)| < 2 := by
    have hcast : (|normalTotal rate N - round (rate * N)| : ℚ) < 2 := by
      calc |(normalTotal rate N : ℚ) - (round (rate * N) : ℤ)| < 3 / 2 := hq
        _ < 2 := by norm_num
    exact_mod_cast hcast
  generalize |normalTotal rate N - round (rate * N)| = a at hz ⊢
  omega

theorem wheelRem_eq_normalRem (v : ℚ) (w : ℚ × ℚ) (n : ℕ) :
    wheelRem v w n = (normalRem (v * w.1) n, normalRem (v * w.2) n) := by
  induction n with
  | zero => rfl
  | succ n ih => simp [wheelRem, normalRem, ih]

theorem wheelTotal_eq_normalTotal (v : ℚ) (w : ℚ × ℚ) (n : ℕ) :
    wheelTotal v w n = (normalTotal (v * w.1) n, normalTotal (v * w.2) n) := by
  induction n with
  | zero => rfl
  | succ n ih => simp [wheelTotal, normalTotal, ih, wheelRem_eq_normalRem]

theorem normalTotal_ratio_bound (v w1 : ℚ) (N : ℕ) :
    |normalTotal (v * (120 * w1)) N - 120 * normalTotal (v * w1) N| ≤ 120 := by
  have hinv1 := normalTotal_add_normalRem (v * (120 * w1)) N
  have hinv0 := normalTotal_add_normalRem (v * w1) N
  have hrem1 := abs_normalRem_lt_one (v * (120 * w1)) N
  have hrem0 := abs_normalRem_lt_one (v * w1) N
  have habs0 := abs_lt.mp hrem0
  have habs1 := abs_lt.mp hrem1
  have hq : |(normalTotal (v * (120 * w1)) N : ℚ)
      - 120 * (normalTotal (v * w1) N : ℚ)| < 121 := by
    have heq : (normalTotal (v * (120 * w1)) N : ℚ)
        - 120 * (normalTotal (v * w1) N : ℚ)
        = 120 * normalRem (v * w1) N - normalRem (v * (120 * w1)) N := by
      have e1 : (normalTotal (v * (120 * w1)) N : ℚ)
          = v * (120 * w1) * N - normalRem (v * (120 * w1)) N := by linarith
      have e0 : (normalTotal (v * w1) N : ℚ)
          = v * w1 * N - normalRem (v * w1) N := by linarith
      rw [e1, e0]
      ring
    rw [heq]
    rw [abs_lt]
    constructor <;> nlinarith
  have hz : |normalTotal (v * (120 * w1)) N - 120 * normalTotal (v * w1) N| < 121 := by
    have hcast : (|normalTotal (v * (120 * w1)) N
        - 120 * normalTotal (v * w1) N| : ℚ) < 121 := by
      exact_mod_cast hq
    exact_mod_cast hcast
  generalize |normalTotal (v * (120 * w1)) N - 120 * normalTotal (v * w1) N| = a at hz ⊢
  omega

/-- Claim C4: wheel mode dual-channel emission.  When the configured
output code is a wheel code, construction selects a fixed channel pair
(the low-res and matching hi-res wheel code) and a fixed weight pair
(`(1, 120)` for a low-res output, `(1/120, 1)` for a hi-res output);
the hi-res weight is always 120 times the low-res weight, and over any
window of `N` ticks of `_run_wheel` (each tick writing both channels
from independent remainders) the two integrated totals keep the 1:120
ratio within rounding tolerance: the hi-res total differs from 120
times the low-res total by at most 120. -/
theorem wheel_selection_and_totals (oc : Nat) (codes : Nat × Nat) (weights : ℚ × ℚ)
    (h : selectRun oc = RunMode.wheel codes weights) :
    ((oc = REL_WHEEL ∨ oc = REL_WHEEL_HI_RES) → codes = (REL_WHEEL, REL_WHEEL_HI_RES)) ∧
    ((oc = REL_HWHEEL ∨ oc = REL_HWHEEL_HI_RES) → codes = (REL_HWHEEL, REL_HWHEEL_HI_RES)) ∧
    ((oc = REL_WHEEL ∨ oc = REL_HWHEEL) → weights = (1, 120)) ∧
    ((oc = REL_WHEEL_HI_RES ∨ oc = REL_HWHEEL_HI_RES) → weights = (1 / 120, 1)) ∧
    weights.2 = 120 * weights.1 ∧
    ∀ (v : ℚ) (N : ℕ),
      |(wheelTotal v weights N).2 - 120 * (wheelTotal v weights N).1| ≤ 120 := by
  have hw : oc = REL_WHEEL ∨ oc = REL_HWHEEL ∨
      oc = REL_WHEEL_HI_RES ∨ oc = REL_HWHEEL_HI_RES := by
    by_contra hnot
    rw [selectRun, if_neg hnot] at h
    exact RunMode.noConfusion h
  have hratio : weights.2 = 120 * weights.1 →
      ∀ (v : ℚ) (N : ℕ),
        |(wheelTotal v weights N).2 - 120 * (wheelTotal v weights N).1| ≤ 120 := by
    intro h120 v N
    rw [wheelTotal_eq_normalTotal, h120]
    exact normalTotal_ratio_bound v weights.1 N
  rcases hw with hc | hc | hc | hc <;>
    subst hc <;>
    rw [selectRun] at h <;>
    norm_num [REL_WHEEL, REL_HWHEEL, REL_WHEEL_HI_RES, REL_HWHEEL_HI_RES] at h <;>
    obtain ⟨hcodes, hweights⟩ := h <;>
    subst hcodes <;> subst hweights <;>
    refine ⟨?_, ?_, ?_, ?_, by norm_num, hratio (by norm_num)⟩ <;>
    simp [REL_WHEEL, REL_HWHEEL, REL_WHEEL_HI_RES, REL_HWHEEL_HI_RES]

/-- Concrete instantiation of `wheel_selection_and_totals` at the
low-res vertical wheel output: the selected codes are
`(REL_WHEEL, REL_WHEEL_HI_RES)` and the weights `(1, 120)`, and the
10-tick totals at rate 2.7 keep the ratio. -/
theorem wheel_selection_and_totals_witness :
    ((1 : ℚ), (120 : ℚ)) = (1, 120) ∧
    |(wheelTotal (27 / 10) ((1 : ℚ), (120 : ℚ)) 10).2
      - 120 * (wheelTotal (27 / 10) ((1 : ℚ), (120 : ℚ)) 10).1| ≤ 120 := by
  have h := wheel_selection_and_totals REL_WHEEL (REL_WHEEL, REL_WHEEL_HI_RES)
    ((1 : ℚ), (120 : ℚ)) (by decide)
  exact ⟨h.2.2.1 (Or.inl rfl), h.2.2.2.2.2 (27 / 10) 10⟩

/-- Claim C2: recenter semantics.  For every input event matching the
mapped axis whose actions contain the recenter flag, `notify` sets the
stop flag (so a live emission loop exits at its next tick) and returns
handled, regardless of the event's value and of the current magnitude,
without writing output, querying capabilities, building or running the
transform, or scheduling a loop: the state changes only in `_stop`. -/
theorem notify_recenter_stops (evalT : Transformation → ℤ → ℚ) (m : Mapping)
    (caps : Nat → AbsInfo) (st : AbsToRelState) (ev : InputEvent)
    (hmatch : ev.type_and_code = st.map_axis)
    (hrec : EventAction.recenter ∈ ev.actions) :
    notify evalT m caps st ev =
      { handled := true, state := { st with stop := true },
        queriedCaps := false, startedLoop := false } ∧
    ∀ (rate rem : ℚ),
      runNormalTick (notify evalT m caps st ev).state.stop rate rem = none := by
  have hn : notify evalT m caps st ev =
      { handled := true, state := { st with stop := true },
        queriedCaps := false, startedLoop := false } := by
    simp [notify, hmatch, hrec]
  refine ⟨hn, fun rate rem => ?_⟩
  rw [hn]
  simp [runNormalTick]

/-- Concrete instantiation of `notify_recenter_stops`: a recenter event
on the mapped axis at a non-rest value, with a loop running. -/
theorem notify_recenter_stops_witness :
    notify (fun _ _ => 0)
      { output_code := 1, target_uinput := "mouse", deadzone := 0, gain := 1,
        expo := 0, rel_xy_speed := 80, rel_wheel_speed := 3, rel_xy_rate := 60,
        rel_wheel_rate := 60, is_wheel_output := false }
      (fun _ => { min := -32768, max := 32767 })
      { map_axis := (EV_ABS, 0), value := 5, running := true, stop := false,
        transform := none }
      { type := EV_ABS, code := 0, value := 77,
        actions := [EventAction.recenter] } =
      { handled := true,
        state := { map_axis := (EV_ABS, 0), value := 5, running := true,
                   stop := true, transform := none },
        queriedCaps := false, startedLoop := false } :=
  (notify_recenter_stops _ _ _ _ _ rfl (by decide)).1

/-- Claim C3: zero-suppression of the target magnitude.  For every
matching event whose transformed magnitude times the configured speed
is exactly zero, `notify` sets the stop flag and returns handled; no
emission loop is scheduled by that event and a live loop exits at its
next tick, so no output write results from it. -/
theorem notify_zero_target_stops (evalT : Transformation → ℤ → ℚ) (m : Mapping)
    (caps : Nat → AbsInfo) (st : AbsToRelState) (ev : InputEvent)
    (hmatch : ev.type_and_code = st.map_axis)
    (hrec : EventAction.recenter ∉ ev.actions)
    (hzero : targetValue evalT m caps st ev = 0) :
    (notify evalT m caps st ev).handled = true ∧
    (notify evalT m caps st ev).state.stop = true ∧
    (notify evalT m caps st ev).startedLoop = false ∧
    ∀ (rate rem : ℚ),
      runNormalTick (notify evalT m caps st ev).state.stop rate rem = none := by
  simp [notify, hmatch, hrec, hzero, runNormalTick]

/-- Concrete instantiation of `notify_zero_target_stops`: a transform
evaluating to 0 at the event value (rest position inside the deadzone),
with a loop running. -/
theorem notify_zero_target_stops_witness :
    (notify (fun _ _ => 0)
      { output_code := 1, target_uinput := "mouse", deadzone := 1 / 10, gain := 1,
        expo := 0, rel_xy_speed := 80, rel_wheel_speed := 3, rel_xy_rate := 60,
        rel_wheel_rate := 60, is_wheel_output := false }
      (fun _ => { min := -32768, max := 32767 })
      { map_axis := (EV_ABS, 0), value := 5, running := true, stop := false,
        transform := none }
      { type := EV_ABS, code := 0, value := 3, actions := [] }).state.stop = true :=
  (notify_zero_target_stops _ _ _ _ _ rfl (by decide)
    (by simp [targetValue, usedTransform, speedFor])).2.1

/-- Claim C6 (amended): at most one loop and re-entrant rate update.
`notify` schedules a loop only when `_running` is clear (last
conjunct, over all states and events).  For a matching non-zero,
non-recenter event delivered while a loop is running, no second loop is
scheduled, the running flag stays set and the target rate is updated in
place; provided no stop request is already pending, the loop stays live
(the stop flag remains clear, so its next tick reads the new rate). -/
theorem at_most_one_loop (evalT : Transformation → ℤ → ℚ) (m : Mapping)
    (caps : Nat → AbsInfo) (st : AbsToRelState) (ev : InputEvent)
    (hmatch : ev.type_and_code = st.map_axis)
    (hrec : EventAction.recenter ∉ ev.actions)
    (hnz : targetValue evalT m caps st ev ≠ 0)
    (hrun : st.running = true) :
    (notify evalT m caps st ev).startedLoop = false ∧
    (notify evalT m caps st ev).state.running = true ∧
    (notify evalT m caps st ev).state.value = targetValue evalT m caps st ev ∧
    (st.stop = false → (notify evalT m caps st ev).state.stop = false) ∧
    (∀ (st2 : AbsToRelState) (ev2 : InputEvent),
      (notify evalT m caps st2 ev2).startedLoop = true → st2.running = false) := by
  refine ⟨?_, ?_, ?_, ?_, ?_⟩
  · simp [notify, hmatch, hrec, hnz, hrun]
  · simp [notify, hmatch, hrec, hnz, hrun]
  · simp [notify, hmatch, hrec, hnz, hrun]
  · intro hstop
    simp [notify, hmatch, hrec, hnz, hrun, hstop]
  · intro st2 ev2 hstart
    by_contra hr
    rw [Bool.not_eq_false] at hr
    simp only [notify, hr] at hstart
    split at hstart
    · simp at hstart
    · split at hstart
      · simp at hstart
      · split at hstart <;> simp at hstart

/-- Claim C6 counterexample: with a loop still running but a stop
request already pending (`_running = True`, `_stop = True`), a matching
non-zero, non-recenter event does not keep the existing loop live:
`notify` starts no second loop but also leaves `_stop` set, so the loop
exits at its next tick instead of reading the updated target rate — the
transition is running to idle, not running to running as claimed. -/
theorem running_stop_pending_cx :
    c6Event.type_and_code = c6State.map_axis ∧
    EventAction.recenter ∉ c6Event.actions ∧
    targetValue c6Eval c6Mapping c6Caps c6State c6Event ≠ 0 ∧
    c6State.running = true ∧
    (notify c6Eval c6Mapping c6Caps c6State c6Event).startedLoop = false ∧
    (notify c6Eval c6Mapping c6Caps c6State c6Event).state.stop = true ∧
    ∀ (rate rem : ℚ),
      runNormalTick (notify c6Eval c6Mapping c6Caps c6State c6Event).state.stop
        rate rem = none := by
  have hnz : targetValue c6Eval c6Mapping c6Caps c6State c6Event ≠ 0 := by
    simp [targetValue, usedTransform, speedFor, c6Eval, c6Mapping, c6Caps,
      c6State, c6Event]
  have hn : (notify c6Eval c6Mapping c6Caps c6State c6Event).state.stop = true := by
    simp [notify, hnz, c6State, c6Event, InputEvent.type_and_code]
  refine ⟨rfl, by decide, hnz, rfl, ?_, hn, fun rate rem => ?_⟩
  · simp [notify, hnz, c6State, c6Event, InputEvent.type_and_code]
  · rw [hn]
    simp [runNormalTick]

/-- Concrete instantiation of `at_most_one_loop`: same handler with no
stop pending — the event updates the rate, schedules nothing, and the
loop stays live. -/
theorem at_most_one_loop_witness :
    (notify c6Eval c6Mapping c6Caps c6StateLive c6Event).startedLoop = false ∧
    (notify c6Eval c6Mapping c6Caps c6StateLive c6Event).state.stop = false := by
  have h := at_most_one_loop c6Eval c6Mapping c6Caps c6StateLive c6Event rfl
    (by decide)
    (by simp [targetValue, usedTransform, speedFor, c6Eval, c6Mapping, c6Caps,
      c6StateLive, c6Event])
    rfl
  exact ⟨h.1, h.2.2.2.1 rfl⟩

/-- Claim C5: overflow containment.  When the output sink raises
`OverflowError` for a non-zero sample, `_write` catches it and drops
that single sample (outcome logged, no exception escapes), and the
emission loop is unaffected: it still produces one write outcome per
tick for any sink and any number of ticks, its remainder state being
computed independently of write outcomes. -/
theorem write_overflow_contained (sink : UInputSink) (t c : Nat) (v : ℤ)
    (hv : v ≠ 0) (herr : sink (t, c, v) = Except.error ()) :
    write sink t c v = WriteOutcome.overflowLogged ∧
    ∀ (oc : Nat) (rate : ℚ) (N : ℕ),
      (normalOutcomes sink oc rate N).length = N := by
  constructor
  · simp [write, hv, herr]
  · intro oc rate N
    induction N with
    | zero => rfl
    | succ n ih => simp [normalOutcomes, ih]

/-- Concrete instantiation of `write_overflow_contained`: a sink that
always overflows still yields one outcome per tick. -/
theorem write_overflow_contained_witness :
    write (fun _ => Except.error ()) EV_REL 0 5000 = WriteOutcome.overflowLogged ∧
    (normalOutcomes (fun _ => Except.error ()) 0 (27 / 10) 3).length = 3 := by
  have h := write_overflow_contained (fun _ => Except.error ()) EV_REL 0 5000
    (by decide) rfl
  exact ⟨h.1, h.2 0 (27 / 10) 3⟩

/-- Claim C7: zero-valued writes are suppressed.  `_write` with value 0
returns without invoking the output sink (its outcome is `skipped` for
every sink alike), and an outcome is `skipped` exactly when the value
is 0, so each loop tick's computed integer reaches the device only if
it is non-zero. -/
theorem write_zero_suppressed (sink sink2 : UInputSink) (t c : Nat) (v : ℤ) :
    write sink t c 0 = WriteOutcome.skipped ∧
    write sink t c 0 = write sink2 t c 0 ∧
    (v = 0 → write sink t c v = WriteOutcome.skipped) ∧
    (write sink t c v = WriteOutcome.skipped → v = 0) := by
  refine ⟨by simp [write], by simp [write], fun h => by simp [write, h],
    fun h => ?_⟩
  by_contra hv
  simp only [write, if_neg hv] at h
  cases hs : sink (t, c, v) <;> rw [hs] at h <;> simp at h

/-- Concrete instantiation of `write_zero_suppressed`. -/
theorem write_zero_suppressed_witness :
    write (fun _ => Except.ok ()) EV_REL REL_WHEEL 0 = WriteOutcome.skipped :=
  (write_zero_suppressed (fun _ => Except.ok ()) (fun _ => Except.error ())
    EV_REL REL_WHEEL 0).1

theorem notify_cached_transform (evalT : Transformation → ℤ → ℚ) (m : Mapping)
    (caps : Nat → AbsInfo) (st : AbsToRelState) (ev : InputEvent)
    (t : Transformation) (ht : st.transform = some t) :
    (notify evalT m caps st ev).queriedCaps = false ∧
    (notify evalT m caps st ev).state.transform = some t := by
  by_cases h1 : ev.type_and_code = st.map_axis
  · by_cases h2 : EventAction.recenter ∈ ev.actions
    · simp [notify, h1, h2, ht]
    · by_cases h3 : targetValue evalT m caps st ev = 0
      · simp [notify, usedTransform, h1, h2, h3, ht]
      · by_cases h4 : st.running
        · simp [notify, usedTransform, h1, h2, h3, h4, ht]
        · simp [notify, usedTransform, h1, h2, h3, h4, ht]
  · simp [notify, h1, ht]

theorem notify_builds_transform (evalT : Transformation → ℤ → ℚ) (m : Mapping)
    (caps : Nat → AbsInfo) (st : AbsToRelState) (ev : InputEvent)
    (hmatch : ev.type_and_code = st.map_axis)
    (hrec : EventAction.recenter ∉ ev.actions)
    (ht : st.transform = none) :
    (notify evalT m caps st ev).queriedCaps = true ∧
    (notify evalT m caps st ev).state.transform =
      some { max_ := (caps ev.code).max, min_ := (caps ev.code).min,
             deadzone := m.deadzone, gain := m.gain, expo := m.expo } := by
  by_cases h3 : targetValue evalT m caps st ev = 0
  · simp [notify, usedTransform, hmatch, hrec, h3, ht]
  · by_cases h4 : st.running
    · simp [notify, usedTransform, hmatch, hrec, h3, h4, ht]
    · simp [notify, usedTransform, hmatch, hrec, h3, h4, ht]

theorem notify_transform_cases (evalT : Transformation → ℤ → ℚ) (m : Mapping)
    (caps : Nat → AbsInfo) (st : AbsToRelState) (ev : InputEvent)
    (ht : st.transform = none) :
    ((notify evalT m caps st ev).queriedCaps = false ∧
      (notify evalT m caps st ev).state.transform = none) ∨
    ((notify evalT m caps st ev).queriedCaps = true ∧
      ∃ t, (notify evalT m caps st ev).state.transform = some t) := by
  by_cases h1 : ev.type_and_code = st.map_axis
  · by_cases h2 : EventAction.recenter ∈ ev.actions
    · exact Or.inl (by simp [notify, h1, h2, ht])
    · exact Or.inr ⟨(notify_builds_transform evalT m caps st ev h1 h2 ht).1,
        _, (notify_builds_transform evalT m caps st ev h1 h2 ht).2⟩
  · exact Or.inl (by simp [notify, h1, ht])

theorem queryCount_cached (evalT : Transformation → ℤ → ℚ) (m : Mapping)
    (caps : Nat → AbsInfo) (t : Transformation) :
    ∀ (evs : List InputEvent) (st : AbsToRelState), st.transform = some t →
      queryCount evalT m caps st evs = 0
  | [], _, _ => rfl
  | ev :: rest, st, ht => by
    have h := notify_cached_transform evalT m caps st ev t ht
    simp [queryCount, h.1, queryCount_cached evalT m caps t rest _ h.2]

theorem queryCount_le_one (evalT : Transformation → ℤ → ℚ) (m : Mapping)
    (caps : Nat → AbsInfo) :
    ∀ (evs : List InputEvent) (st : AbsToRelState), st.transform = none →
      queryCount evalT m caps st evs ≤ 1
  | [], _, _ => by simp [queryCount]
  | ev :: rest, st, ht => by
    rcases notify_transform_cases evalT m caps st ev ht with ⟨hq, htr⟩ | ⟨hq, t, htr⟩
    · simpa [queryCount, hq] using queryCount_le_one evalT m caps rest _ htr
    · simp [queryCount, hq, queryCount_cached evalT m caps t rest _ htr]

/-- Claim C8: lazy, once-only transform construction.  The constructor
leaves `_transform` unset; the first matching non-recenter event builds
it from the device's reported range for the event's axis code plus the
mapping's deadzone, gain and expo (querying capabilities); any later
event reuses the cached transformation unchanged; and over an arbitrary
sequence of `notify` calls starting from a fresh handler, capabilities
are queried at most once. -/
theorem transform_lazy_once (evalT : Transformation → ℤ → ℚ) (m : Mapping)
    (caps : Nat → AbsInfo) (axis : Nat × Nat) (st : AbsToRelState)
    (ev : InputEvent) (t : Transformation)
    (hmatch : ev.type_and_code = st.map_axis)
    (hrec : EventAction.recenter ∉ ev.actions) :
    (initState axis).transform = none ∧
    (st.transform = none →
      (notify evalT m caps st ev).queriedCaps = true ∧
      (notify evalT m caps st ev).state.transform =
        some { max_ := (caps ev.code).max, min_ := (caps ev.code).min,
               deadzone := m.deadzone, gain := m.gain, expo := m.expo }) ∧
    (st.transform = some t →
      (notify evalT m caps st ev).queriedCaps = false ∧
      (notify evalT m caps st ev).state.transform = some t) ∧
    ∀ (evs : List InputEvent), queryCount evalT m caps (initState axis) evs ≤ 1 := by
  refine ⟨rfl, ?_, ?_, ?_⟩
  · exact notify_builds_transform evalT m caps st ev hmatch hrec
  · exact notify_cached_transform evalT m caps st ev t
  · exact fun evs => queryCount_le_one evalT m caps evs (initState axis) rfl

/-- Concrete instantiation of `transform_lazy_once`: a fresh handler
has no transform, and two matching events query capabilities at most
once. -/
theorem transform_lazy_once_witness :
    (initState (EV_ABS, 0)).transform = none ∧
    queryCount (fun _ _ => 1) c8Mapping c8Caps (initState (EV_ABS, 0))
      [c8Event, c8Event] ≤ 1 := by
  have h := transform_lazy_once (fun _ _ => 1) c8Mapping c8Caps (EV_ABS, 0)
    (initState (EV_ABS, 0)) c8Event c8Transform rfl (by decide)
  exact ⟨h.1, h.2.2.2 [c8Event, c8Event]⟩

/-- Claim C9: fail-fast on sub-handler acquisition.  Every call of
`set_sub_handler`, with any argument of any type, fails immediately
with the assertion error (a fatal programming-invariant violation),
never returning normally. -/
theorem set_sub_handler_fails {α : Type} (handler : α) :
    set_sub_handler handler = Except.error PyError.assertionError := rfl

theorem findMapAxis_no_zero (comb : List InputEvent)
    (h : ∀ e ∈ comb, e.value ≠ 0) : findMapAxis comb = Except.ok none := by
  induction comb with
  | nil => rfl
  | cons ev rest ih =>
    have h0 : ev.value ≠ 0 := h ev (by simp)
    simp only [findMapAxis, if_neg h0]
    exact ih fun e he => h e (by simp [he])

theorem findMapAxis_first_zero (pre post : List InputEvent) (ev : InputEvent)
    (hpre : ∀ e ∈ pre, e.value ≠ 0) (hz : ev.value = 0) :
    findMapAxis (pre ++ ev :: post) =
      if ev.type = EV_ABS then Except.ok (some ev.type_and_code)
      else Except.error PyError.assertionError := by
  induction pre with
  | nil => simp [findMapAxis, hz]
  | cons e rest ih =>
    have h0 : e.value ≠ 0 := hpre e (by simp)
    simp only [List.cons_append, findMapAxis, if_neg h0]
    exact ih fun x hx => hpre x (by simp [hx])

/-- Claim C10: constructor precondition on the trigger.  A combination
with no zero-valued event leaves the mapped axis unset; otherwise the
first zero-valued event must pass the `EV_ABS` assertion (any other
type fails it), and its `(type, code)` becomes the mapped axis — the
axis every later `notify` call matches events against, a mismatching
event being rejected unhandled with the state untouched. -/
theorem map_axis_from_combination (comb pre post : List InputEvent)
    (ev : InputEvent) :
    ((∀ e ∈ comb, e.value ≠ 0) → findMapAxis comb = Except.ok none) ∧
    (comb = pre ++ ev :: post → (∀ e ∈ pre, e.value ≠ 0) → ev.value = 0 →
      ((ev.type = EV_ABS →
        findMapAxis comb = Except.ok (some ev.type_and_code)) ∧
       (ev.type ≠ EV_ABS →
        findMapAxis comb = Except.error PyError.assertionError))) ∧
    ∀ (evalT : Transformation → ℤ → ℚ) (m : Mapping) (caps : Nat → AbsInfo)
      (ev2 : InputEvent), ev2.type_and_code ≠ ev.type_and_code →
      (notify evalT m caps (initState ev.type_and_code) ev2).handled = false ∧
      (notify evalT m caps (initState ev.type_and_code) ev2).state =
        initState ev.type_and_code := by
  refine ⟨findMapAxis_no_zero comb, ?_, ?_⟩
  · intro hcomb hpre hz
    subst hcomb
    rw [findMapAxis_first_zero pre post ev hpre hz]
    constructor
    · intro htype
      rw [if_pos htype]
    · intro htype
      rw [if_neg htype]
  · intro evalT m caps ev2 hne
    constructor <;> simp [notify, initState, hne]

/-- Concrete instantiation of `map_axis_from_combination`: a trigger
pairing a non-zero event with the zero-valued `EV_ABS` axis event whose
`(type, code)` becomes the mapped axis. -/
theorem map_axis_from_combination_witness :
    findMapAxis [{ type := EV_ABS, code := 5, value := 10, actions := [] },
        { type := EV_ABS, code := 1, value := 0, actions := [] }] =
      Except.ok (some (EV_ABS, 1)) := by
  have h := map_axis_from_combination
    [{ type := EV_ABS, code := 5, value := 10, actions := [] },
     { type := EV_ABS, code := 1, value := 0, actions := [] }]
    [{ type := EV_ABS, code := 5, value := 10, actions := [] }] []
    { type := EV_ABS, code := 1, value := 0, actions := [] }
  exact (h.2.1 rfl (by decide) rfl).1 rfl
